import Mathlib

/-!
Shallow embedding of `src/backend/main.py` (lotrrtm_shared_save): a
password-gated two-endpoint file-exchange gateway whose durable state lives
in an external parameter store (three string parameters: Lock, Tracked
Filename, Password) and an object store (blobs keyed by filename).

The embedding models one HTTP request at a time.  External-call failures
(`botocore.ClientError` raised by a particular SSM/S3 round trip) are
injected through an explicit `Faults` record, one flag per call site, so a
single execution of `get_file` / `upload_file` is a pure function of the
store contents, the fault profile and the request arguments.
-/

namespace LotrShared

/-- Bytes of an artifact, modelled as a list of byte values. -/
abbrev Bytes := List Nat

/-- Durable state visible to one request: the three SSM parameters
(`SSM_PARAMETER_NAME` = lock, `SSM_FILENAME_PARAMETER_NAME` = tracked
filename, `SSM_PASSWORD_PARAMETER_NAME` = password), each `none` when the
parameter is absent from the store, plus the S3 bucket contents as an
association list from key to bytes. -/
structure Store where
  lock : Option String
  filename : Option String
  password : Option String
  blobs : List (String × Bytes)
deriving Repr, DecidableEq

/-- Fault profile for one request: which external round trips raise
`ClientError`.  Each flag corresponds to one call site in `main.py`. -/
structure Faults where
  getPasswordErr : Bool
  getLockErr : Bool
  getFilenameErr : Bool
  blobGetOtherErr : Bool
  blobPutErr : Bool
  setLockErr : Bool
  setFilenameErr : Bool
deriving Repr, DecidableEq

/-- Fault profile in which every external call succeeds. -/
def noFaults : Faults :=
  { getPasswordErr := false, getLockErr := false, getFilenameErr := false
    blobGetOtherErr := false, blobPutErr := false
    setLockErr := false, setFilenameErr := false }

/-- Constant `LOCK_VALUE_UNLOCKED = "unlocked"` from `main.py` line 19. -/
def LOCK_VALUE_UNLOCKED : String := "unlocked"

/-- Single-quote character, used in the interpolated detail strings. -/
def sq : String := String.singleton (Char.ofNat 39)

/-- Python string interpolation of an `Optional[str]`: `None` prints as
the literal string `"None"`. -/
def showLock : Option String → String
  | some v => v
  | none => "None"

/-- Lookup of a blob by key in the bucket. -/
def lookupBlob (blobs : List (String × Bytes)) (k : String) : Option Bytes :=
  match blobs.find? (fun p => p.1 = k) with
  | some p => some p.2
  | none => none

/-- Overwriting write of a blob under key `k` (S3 put semantics). -/
def insertBlob (blobs : List (String × Bytes)) (k : String) (v : Bytes) :
    List (String × Bytes) :=
  (k, v) :: blobs.filter (fun p => ¬ p.1 = k)

/-- Embedding of `get_ssm_parameter` (`main.py` lines 49..66) for a request
whose SSM client is available: a `ClientError` on the round trip raises
`HTTPException(500, "Error communicating with AWS SSM to get <name>")`;
`ParameterNotFound` yields `None`; otherwise the stored value is returned.
`stored` is the parameter's current value (absent = `none`) and `clientErr`
says whether this round trip raises `ClientError`. -/
def get_ssm_parameter (paramName : String) (stored : Option String)
    (clientErr : Bool) : Except (Nat × String) (Option String) :=
  if clientErr then
    Except.error (500, "Error communicating with AWS SSM to get " ++ paramName)
  else
    Except.ok stored

/-- Embedding of `set_ssm_parameter` (`main.py` lines 69..87) for a request
whose SSM client is available and `overwrite=True` (every call site): a
`ClientError` raises `HTTPException(500, "Error communicating with AWS SSM
to set <name>")` (the `ParameterAlreadyExists` early return needs
`overwrite=False` so it is dead at these call sites); success returns
`True`.  The `False` return needs `ssm_client is None`, which the handlers
exclude before calling. -/
def set_ssm_parameter (paramName : String) (clientErr : Bool) :
    Except (Nat × String) Bool :=
  if clientErr then
    Except.error (500, "Error communicating with AWS SSM to set " ++ paramName)
  else
    Except.ok true

/-- Result of a `GET /get` request: a 200 `FileResponse` carrying the
fetched bytes and the filename metadata, or an `HTTPException` with status
and detail. -/
inductive GetResult
  | ok (body : Bytes) (filename : String)
  | error (status : Nat) (detail : String)
deriving Repr, DecidableEq

/-- Full outcome of a `GET /get` request: the HTTP result, the store after
the request, whether the temporary staging directory was created
(`tempfile.TemporaryDirectory()` at line 127), and whether its explicit
release (`clean_temp_dir` scheduled as a background task, `main.py` lines
140, 147, 154) happened on the taken path. -/
structure GetOutcome where
  result : GetResult
  store : Store
  stagingCreated : Bool
  stagingReleased : Bool
deriving Repr, DecidableEq

/-- Result of a `POST /post` request: the 200 JSON message or an
`HTTPException` with status and detail. -/
inductive PostResult
  | ok (message : String)
  | error (status : Nat) (detail : String)
deriving Repr, DecidableEq

/-- Full outcome of a `POST /post` request: the HTTP result, the store
after the request, and whether `file.close()` ran on the taken path. -/
structure PostOutcome where
  result : PostResult
  store : Store
  fileClosed : Bool
deriving Repr, DecidableEq

/-- Embedding of `get_file` (`main.py` lines 91..179).  `clientAvailable`
models `s3_client and ssm_client` being initialized.  Control flow follows
the source line by line: availability guard, password fetch and check, lock
fetch, then either the unlocked download path (filename fetch, sentinel
check, staging directory, S3 download, lock write, response) or the 409
conflict naming the current lock holder.  A `ClientError` during the lock
write makes `set_ssm_parameter` raise `HTTPException`, which the
`except ClientError` handler at line 153 does not catch, so on that path no
`clean_temp_dir` background task is scheduled. -/
def get_file (s : Store) (f : Faults) (who_are_you password : String)
    (clientAvailable : Bool) : GetOutcome :=
  if ¬ clientAvailable then
    ⟨.error 503 "AWS service client not available.", s, false, false⟩
  else
    match get_ssm_parameter "password" s.password f.getPasswordErr with
    | .error e => ⟨.error e.1 e.2, s, false, false⟩
    | .ok app_password =>
      if ¬ app_password = some password then
        ⟨.error 403 "Provided password not valid", s, false, false⟩
      else
        match get_ssm_parameter "lock" s.lock f.getLockErr with
        | .error e => ⟨.error e.1 e.2, s, false, false⟩
        | .ok current_lock_value =>
          if current_lock_value = some LOCK_VALUE_UNLOCKED then
            match get_ssm_parameter "filename" s.filename f.getFilenameErr with
            | .error e => ⟨.error e.1 e.2, s, false, false⟩
            | .ok filename_to_download =>
              match filename_to_download with
              | none =>
                ⟨.error 404 "No valid save filename found to download.",
                  s, false, false⟩
              | some fn =>
                if fn = "" ∨ fn = "init" then
                  ⟨.error 404 "No valid save filename found to download.",
                    s, false, false⟩
                else
                  -- temp_dir = tempfile.TemporaryDirectory()
                  if f.blobGetOtherErr then
                    ⟨.error 500 "Error downloading file from S3.",
                      s, true, true⟩
                  else
                    match lookupBlob s.blobs fn with
                    | none =>
                      ⟨.error 404
                          ("Save file " ++ sq ++ fn ++ sq ++
                            " not found in S3."),
                        s, true, true⟩
                    | some bytes =>
                      match set_ssm_parameter "lock" f.setLockErr with
                      | .error e =>
                        -- HTTPException escapes `except ClientError`;
                        -- no clean_temp_dir task is scheduled here.
                        ⟨.error e.1 e.2, s, true, false⟩
                      | .ok _ =>
                        ⟨.ok bytes fn,
                          { s with lock := some who_are_you }, true, true⟩
          else
            ⟨.error 409
                ("Cannot download as save is locked by " ++
                  showLock s.lock),
              s, false, false⟩

/-- Embedding of `upload_file` (`main.py` lines 186..263).  Control flow
follows the source: availability guard, password fetch and check, empty
filename check, lock fetch, then either the locked upload path (S3 put,
tracked-filename write, best-effort-intended lock reset, success message)
or the 409 conflict while unlocked.  A `ClientError` during either
parameter write raises `HTTPException` out of `set_ssm_parameter`; the
`except ClientError` at line 250 does not catch it, the `finally` still
closes the file, and the request fails with that 500. -/
def upload_file (s : Store) (f : Faults) (who_are_you password : String)
    (filename : String) (content : Bytes) (clientAvailable : Bool) :
    PostOutcome :=
  if ¬ clientAvailable then
    ⟨.error 503 "AWS service client not available.", s, false⟩
  else
    match get_ssm_parameter "password" s.password f.getPasswordErr with
    | .error e => ⟨.error e.1 e.2, s, false⟩
    | .ok app_password =>
      if ¬ app_password = some password then
        ⟨.error 403 "Provided password not valid", s, false⟩
      else if filename = "" then
        ⟨.error 400 "Filename cannot be empty.", s, false⟩
      else
        match get_ssm_parameter "lock" s.lock f.getLockErr with
        | .error e => ⟨.error e.1 e.2, s, false⟩
        | .ok current_lock_value =>
          if ¬ current_lock_value = some LOCK_VALUE_UNLOCKED then
            if f.blobPutErr then
              ⟨.error 500 "Error uploading file to S3.", s, true⟩
            else
              let s1 : Store :=
                { s with blobs := insertBlob s.blobs filename content }
              match set_ssm_parameter "filename" f.setFilenameErr with
              | .error e => ⟨.error e.1 e.2, s1, true⟩
              | .ok _ =>
                let s2 : Store := { s1 with filename := some filename }
                match set_ssm_parameter "lock" f.setLockErr with
                | .error e => ⟨.error e.1 e.2, s2, true⟩
                | .ok _ =>
                  ⟨.ok ("File " ++ sq ++ filename ++ sq ++
                      " uploaded successfully by " ++ sq ++ who_are_you ++
                      sq ++ "."),
                    { s2 with lock := some LOCK_VALUE_UNLOCKED }, true⟩
          else
            ⟨.error 409
                ("Cannot upload: API lock is " ++ sq ++ LOCK_VALUE_UNLOCKED ++
                  sq ++
                  ", indicating a file may already be present and downloadable."),
              s, true⟩

end LotrShared

namespace LotrShared

/-- C2: a download request made while Lock is not `"unlocked"` (including
when the Lock parameter holds an identity written by a previous successful
download) fails with HTTP 409, the detail message contains the current Lock
value, and no store state is mutated (nor is any staging area created). -/
theorem get_file_locked_conflict (l fnm pwv : Option String)
    (bl : List (String × Bytes)) (who p : String) (f : Faults)
    (hpe : f.getPasswordErr = false) (hle : f.getLockErr = false)
    (hpw : pwv = some p) (hl : ¬ l = some LOCK_VALUE_UNLOCKED) :
    get_file ⟨l, fnm, pwv, bl⟩ f who p true =
      ⟨.error 409 ("Cannot download as save is locked by " ++ showLock l),
        ⟨l, fnm, pwv, bl⟩, false, false⟩ ∧
    ∃ pre suf,
      "Cannot download as save is locked by " ++ showLock l =
        pre ++ showLock l ++ suf := by
  subst hpw
  refine ⟨?_, "Cannot download as save is locked by ", "", by simp⟩
  simp [get_file, get_ssm_parameter, hpe, hle, hl]

/-- Witness for C2 at a concrete locked store. -/
theorem get_file_locked_conflict_witness :
    get_file ⟨some "alice", some "save.bin", some "pw", []⟩ noFaults
        "bob" "pw" true =
      ⟨.error 409
          ("Cannot download as save is locked by " ++ showLock (some "alice")),
        ⟨some "alice", some "save.bin", some "pw", []⟩, false, false⟩ ∧
    ∃ pre suf,
      "Cannot download as save is locked by " ++ showLock (some "alice") =
        pre ++ showLock (some "alice") ++ suf :=
  get_file_locked_conflict (some "alice") (some "save.bin") (some "pw") []
    "bob" "pw" noFaults rfl rfl rfl (by decide)

/-- C3: an upload request made while Lock equals `"unlocked"` fails with
HTTP 409 and alters neither the Tracked Filename, nor the Lock, nor the
blob store. -/
theorem upload_file_unlocked_conflict (fnm pwv : Option String)
    (bl : List (String × Bytes)) (who p F : String) (B : Bytes) (f : Faults)
    (hpe : f.getPasswordErr = false) (hle : f.getLockErr = false)
    (hpw : pwv = some p) (hF : ¬ F = "") :
    upload_file ⟨some LOCK_VALUE_UNLOCKED, fnm, pwv, bl⟩ f who p F B true =
      ⟨.error 409
          ("Cannot upload: API lock is " ++ sq ++ LOCK_VALUE_UNLOCKED ++ sq ++
            ", indicating a file may already be present and downloadable."),
        ⟨some LOCK_VALUE_UNLOCKED, fnm, pwv, bl⟩, true⟩ := by
  subst hpw
  simp [upload_file, get_ssm_parameter, hpe, hle, hF]

/-- Witness for C3 at a concrete unlocked store. -/
theorem upload_file_unlocked_conflict_witness :
    upload_file ⟨some LOCK_VALUE_UNLOCKED, some "old", some "pw", []⟩
        noFaults "bob" "pw" "new.bin" [7] true =
      ⟨.error 409
          ("Cannot upload: API lock is " ++ sq ++ LOCK_VALUE_UNLOCKED ++ sq ++
            ", indicating a file may already be present and downloadable."),
        ⟨some LOCK_VALUE_UNLOCKED, some "old", some "pw", []⟩, true⟩ :=
  upload_file_unlocked_conflict (some "old") (some "pw") [] "bob" "pw"
    "new.bin" [7] noFaults rfl rfl rfl (by decide)

/-- C4: a download request made while Lock equals `"unlocked"` whose
Tracked Filename is missing, empty, or the sentinel `"init"` fails with
HTTP 404 and mutates no store state; in particular the Lock is unchanged
and no staging area is created. -/
theorem get_file_sentinel_notfound (fnm pwv : Option String)
    (bl : List (String × Bytes)) (who p : String) (f : Faults)
    (hpe : f.getPasswordErr = false) (hle : f.getLockErr = false)
    (hfe : f.getFilenameErr = false) (hpw : pwv = some p)
    (hfn : fnm = none ∨ fnm = some "" ∨ fnm = some "init") :
    get_file ⟨some LOCK_VALUE_UNLOCKED, fnm, pwv, bl⟩ f who p true =
      ⟨.error 404 "No valid save filename found to download.",
        ⟨some LOCK_VALUE_UNLOCKED, fnm, pwv, bl⟩, false, false⟩ := by
  subst hpw
  rcases hfn with h | h | h <;> subst h <;>
    simp [get_file, get_ssm_parameter, hpe, hle, hfe, LOCK_VALUE_UNLOCKED]

/-- Witness for C4 at a concrete store whose Tracked Filename is the
sentinel. -/
theorem get_file_sentinel_notfound_witness :
    get_file ⟨some LOCK_VALUE_UNLOCKED, some "init", some "pw", []⟩
        noFaults "bob" "pw" true =
      ⟨.error 404 "No valid save filename found to download.",
        ⟨some LOCK_VALUE_UNLOCKED, some "init", some "pw", []⟩,
        false, false⟩ :=
  get_file_sentinel_notfound (some "init") (some "pw") [] "bob" "pw"
    noFaults rfl rfl rfl rfl (by simp)

end LotrShared

namespace LotrShared

/-- Helper: an S3 put followed by a get of the same key returns the bytes
just written. -/
theorem lookupBlob_insertBlob (bl : List (String × Bytes)) (k : String)
    (v : Bytes) : lookupBlob (insertBlob bl k v) k = some v := by
  simp [lookupBlob, insertBlob, List.find?]

/-- C5: a request (download or upload) whose supplied password differs
from the stored secret fails with HTTP 403 and mutates nothing; the store
after the request is unchanged.  The fault profile is arbitrary except for
the password fetch itself, and the Lock value is arbitrary, so the rejection
is independent of the Lock parameter and happens before the Lock is read:
even a fault on the lock fetch cannot change the outcome. -/
theorem wrong_password_rejected (l fnm pwv : Option String)
    (bl : List (String × Bytes)) (who p F : String) (B : Bytes) (f : Faults)
    (hpe : f.getPasswordErr = false) (hpw : ¬ pwv = some p) :
    get_file ⟨l, fnm, pwv, bl⟩ f who p true =
      ⟨.error 403 "Provided password not valid",
        ⟨l, fnm, pwv, bl⟩, false, false⟩ ∧
    upload_file ⟨l, fnm, pwv, bl⟩ f who p F B true =
      ⟨.error 403 "Provided password not valid", ⟨l, fnm, pwv, bl⟩, false⟩ := by
  constructor <;> simp [get_file, upload_file, get_ssm_parameter, hpe, hpw]

/-- Witness for C5 with a wrong password, an unlocked store, and a fault
injected on the (never reached) lock fetch. -/
theorem wrong_password_rejected_witness :
    get_file ⟨some LOCK_VALUE_UNLOCKED, some "save.bin", some "pw", []⟩
        { noFaults with getLockErr := true } "bob" "wrong" true =
      ⟨.error 403 "Provided password not valid",
        ⟨some LOCK_VALUE_UNLOCKED, some "save.bin", some "pw", []⟩,
        false, false⟩ ∧
    upload_file ⟨some LOCK_VALUE_UNLOCKED, some "save.bin", some "pw", []⟩
        { noFaults with getLockErr := true } "bob" "wrong" "new.bin" [7]
        true =
      ⟨.error 403 "Provided password not valid",
        ⟨some LOCK_VALUE_UNLOCKED, some "save.bin", some "pw", []⟩, false⟩ :=
  wrong_password_rejected (some LOCK_VALUE_UNLOCKED) (some "save.bin")
    (some "pw") [] "bob" "wrong" "new.bin" [7]
    { noFaults with getLockErr := true } rfl (by simp [LOCK_VALUE_UNLOCKED])

/-- C10: when the Password parameter is absent from the parameter store,
every request (download or upload, any supplied password) is rejected with
HTTP 403 and nothing is mutated, since the absent secret (`None`) never
compares equal to a supplied password string. -/
theorem absent_password_rejected (l fnm : Option String)
    (bl : List (String × Bytes)) (who p F : String) (B : Bytes) (f : Faults)
    (hpe : f.getPasswordErr = false) :
    get_file ⟨l, fnm, none, bl⟩ f who p true =
      ⟨.error 403 "Provided password not valid",
        ⟨l, fnm, none, bl⟩, false, false⟩ ∧
    upload_file ⟨l, fnm, none, bl⟩ f who p F B true =
      ⟨.error 403 "Provided password not valid", ⟨l, fnm, none, bl⟩, false⟩ := by
  constructor <;> simp [get_file, upload_file, get_ssm_parameter, hpe]

/-- Witness for C10 at a concrete store with no Password parameter. -/
theorem absent_password_rejected_witness :
    get_file ⟨some LOCK_VALUE_UNLOCKED, some "save.bin", none, []⟩ noFaults
        "bob" "anything" true =
      ⟨.error 403 "Provided password not valid",
        ⟨some LOCK_VALUE_UNLOCKED, some "save.bin", none, []⟩,
        false, false⟩ ∧
    upload_file ⟨some LOCK_VALUE_UNLOCKED, some "save.bin", none, []⟩
        noFaults "bob" "anything" "new.bin" [7] true =
      ⟨.error 403 "Provided password not valid",
        ⟨some LOCK_VALUE_UNLOCKED, some "save.bin", none, []⟩, false⟩ :=
  absent_password_rejected (some LOCK_VALUE_UNLOCKED) (some "save.bin") []
    "bob" "anything" "new.bin" [7] noFaults rfl

/-- C9: an absent Lock parameter is never treated as `"unlocked"`: with the
Lock missing, a download is refused with HTTP 409 (the conflict message
formats the missing value as `"None"`), while an upload proceeds as if the
gateway were locked and succeeds when every external call succeeds. -/
theorem missing_lock_not_unlocked (fnm pwv : Option String)
    (bl : List (String × Bytes)) (who who2 p F : String) (B : Bytes)
    (hpw : pwv = some p) (hF : ¬ F = "") :
    (get_file ⟨none, fnm, pwv, bl⟩ noFaults who p true).result =
      .error 409 ("Cannot download as save is locked by " ++ showLock none) ∧
    ∃ m, (upload_file ⟨none, fnm, pwv, bl⟩ noFaults who2 p F B true).result =
      .ok m := by
  subst hpw
  constructor
  · simp [get_file, get_ssm_parameter, noFaults]
  · refine ⟨"File " ++ sq ++ F ++ sq ++ " uploaded successfully by " ++
      sq ++ who2 ++ sq ++ ".", ?_⟩
    simp [upload_file, get_ssm_parameter, set_ssm_parameter, noFaults, hF]

/-- Witness for C9 at a concrete store whose Lock parameter is absent. -/
theorem missing_lock_not_unlocked_witness :
    (get_file ⟨none, some "save.bin", some "pw", []⟩ noFaults "bob" "pw"
        true).result =
      .error 409 ("Cannot download as save is locked by " ++ showLock none) ∧
    ∃ m, (upload_file ⟨none, some "save.bin", some "pw", []⟩ noFaults "carol"
        "pw" "new.bin" [7] true).result = .ok m :=
  missing_lock_not_unlocked (some "save.bin") (some "pw") [] "bob" "carol"
    "pw" "new.bin" [7] rfl (by simp)

end LotrShared

namespace LotrShared

/-- C1 (counterexample): the round trip fails for the filename `"init"`.
From the locked store, an authorized upload of bytes `[7]` under the
non-empty filename `"init"` fully succeeds (blob write, Tracked Filename
write and Lock reset all succeed, and the success message is returned), yet
the subsequent authorized download while Lock equals `"unlocked"` returns
HTTP 404 instead of the bytes `[7]` with filename `"init"`, because the
uploaded filename collides with the sentinel. -/
theorem roundtrip_init_counterexample :
    upload_file ⟨some "alice", some "old", some "pw", []⟩ noFaults "bob"
        "pw" "init" [7] true =
      ⟨.ok ("File " ++ sq ++ "init" ++ sq ++ " uploaded successfully by " ++
          sq ++ "bob" ++ sq ++ "."),
        ⟨some LOCK_VALUE_UNLOCKED, some "init", some "pw", [("init", [7])]⟩,
        true⟩ ∧
    get_file ⟨some LOCK_VALUE_UNLOCKED, some "init", some "pw",
        [("init", [7])]⟩ noFaults "carol" "pw" true =
      ⟨.error 404 "No valid save filename found to download.",
        ⟨some LOCK_VALUE_UNLOCKED, some "init", some "pw", [("init", [7])]⟩,
        false, false⟩ :=
  ⟨rfl, rfl⟩

/-- C1 (amended): round trip for a filename that is non-empty and distinct
from the sentinel `"init"`.  If the gateway is locked and an authorized
upload of bytes `B` under such a filename `F` succeeds with every external
write succeeding, the store afterwards is unlocked with `F` tracked and `B`
stored, and a subsequent authorized download returns exactly the bytes `B`
with `F` as the filename metadata (locking the gateway with the downloader
identity). -/
theorem upload_download_roundtrip (l fnm pwv : Option String)
    (bl : List (String × Bytes)) (who who2 p F : String) (B : Bytes)
    (hl : ¬ l = some LOCK_VALUE_UNLOCKED) (hpw : pwv = some p)
    (hF : ¬ F = "") (hFi : ¬ F = "init") :
    upload_file ⟨l, fnm, pwv, bl⟩ noFaults who p F B true =
      ⟨.ok ("File " ++ sq ++ F ++ sq ++ " uploaded successfully by " ++ sq ++
          who ++ sq ++ "."),
        ⟨some LOCK_VALUE_UNLOCKED, some F, pwv, insertBlob bl F B⟩, true⟩ ∧
    get_file ⟨some LOCK_VALUE_UNLOCKED, some F, pwv, insertBlob bl F B⟩
        noFaults who2 p true =
      ⟨.ok B F, ⟨some who2, some F, pwv, insertBlob bl F B⟩, true, true⟩ := by
  subst hpw
  constructor
  · simp [upload_file, get_ssm_parameter, set_ssm_parameter, noFaults, hl, hF]
  · simp [get_file, get_ssm_parameter, set_ssm_parameter, noFaults, hF, hFi,
      lookupBlob_insertBlob]

/-- Witness for the amended C1 round trip at concrete inputs. -/
theorem upload_download_roundtrip_witness :
    upload_file ⟨some "alice", some "old", some "pw", []⟩ noFaults "bob"
        "pw" "save.bin" [1, 2, 3] true =
      ⟨.ok ("File " ++ sq ++ "save.bin" ++ sq ++
          " uploaded successfully by " ++ sq ++ "bob" ++ sq ++ "."),
        ⟨some LOCK_VALUE_UNLOCKED, some "save.bin", some "pw",
          insertBlob [] "save.bin" [1, 2, 3]⟩, true⟩ ∧
    get_file ⟨some LOCK_VALUE_UNLOCKED, some "save.bin", some "pw",
        insertBlob [] "save.bin" [1, 2, 3]⟩ noFaults "carol" "pw" true =
      ⟨.ok [1, 2, 3] "save.bin",
        ⟨some "carol", some "save.bin", some "pw",
          insertBlob [] "save.bin" [1, 2, 3]⟩, true, true⟩ :=
  upload_download_roundtrip (some "alice") (some "old") (some "pw") []
    "bob" "carol" "pw" "save.bin" [1, 2, 3] (by simp [LOCK_VALUE_UNLOCKED])
    rfl (by simp) (by simp)

/-- C6: during an upload while locked, if the blob-store write succeeds but
the Tracked Filename write raises, the request fails with HTTP 500 (the
`HTTPException` raised inside `set_ssm_parameter`), the Lock is left
unchanged at its former non-`"unlocked"` value, and the unlocking write of
step 3 is never reached (the conclusion holds for every value of
`f.setLockErr`, so the lock write cannot have been attempted). -/
theorem upload_filename_write_failure (l fnm pwv : Option String)
    (bl : List (String × Bytes)) (who p F : String) (B : Bytes) (f : Faults)
    (hpe : f.getPasswordErr = false) (hle : f.getLockErr = false)
    (hbp : f.blobPutErr = false) (hsf : f.setFilenameErr = true)
    (hl : ¬ l = some LOCK_VALUE_UNLOCKED) (hpw : pwv = some p)
    (hF : ¬ F = "") :
    upload_file ⟨l, fnm, pwv, bl⟩ f who p F B true =
      ⟨.error 500 "Error communicating with AWS SSM to set filename",
        ⟨l, fnm, pwv, insertBlob bl F B⟩, true⟩ := by
  subst hpw
  simp [upload_file, get_ssm_parameter, set_ssm_parameter, hpe, hle, hbp,
    hsf, hl, hF]

/-- Witness for C6 at a concrete locked store with only the
tracked-filename write faulted. -/
theorem upload_filename_write_failure_witness :
    upload_file ⟨some "alice", some "old", some "pw", []⟩
        { noFaults with setFilenameErr := true } "bob" "pw" "new.bin" [7]
        true =
      ⟨.error 500 "Error communicating with AWS SSM to set filename",
        ⟨some "alice", some "old", some "pw", insertBlob [] "new.bin" [7]⟩,
        true⟩ :=
  upload_filename_write_failure (some "alice") (some "old") (some "pw") []
    "bob" "pw" "new.bin" [7] { noFaults with setFilenameErr := true }
    rfl rfl rfl rfl (by simp [LOCK_VALUE_UNLOCKED]) rfl (by simp)

end LotrShared

namespace LotrShared

/-- C7 (counterexample): the final Lock write is not best-effort.  At a
locked store with every call succeeding except the final
`set_ssm_parameter(SSM_PARAMETER_NAME, "unlocked")`, the upload request does
not return the success acknowledgment: the `HTTPException` raised inside
`set_ssm_parameter` propagates (the `except ClientError` clause does not
catch it) and the request fails with HTTP 500, even though the blob and the
Tracked Filename were written. -/
theorem unlock_write_failure_counterexample :
    upload_file ⟨some "alice", some "old", some "pw", []⟩
        { noFaults with setLockErr := true } "bob" "pw" "new.bin" [7] true =
      ⟨.error 500 "Error communicating with AWS SSM to set lock",
        ⟨some "alice", some "new.bin", some "pw",
          insertBlob [] "new.bin" [7]⟩, true⟩ :=
  rfl

/-- C7 (amended): only the boolean return value of the final Lock write is
ignored; a raising failure of that write makes the whole request fail with
HTTP 500.  In that case the blob write and the Tracked Filename write are
retained and the Lock keeps its former (non-`"unlocked"`) value. -/
theorem unlock_write_failure_fails_request (l fnm pwv : Option String)
    (bl : List (String × Bytes)) (who p F : String) (B : Bytes) (f : Faults)
    (hpe : f.getPasswordErr = false) (hle : f.getLockErr = false)
    (hbp : f.blobPutErr = false) (hsf : f.setFilenameErr = false)
    (hsl : f.setLockErr = true) (hl : ¬ l = some LOCK_VALUE_UNLOCKED)
    (hpw : pwv = some p) (hF : ¬ F = "") :
    upload_file ⟨l, fnm, pwv, bl⟩ f who p F B true =
      ⟨.error 500 "Error communicating with AWS SSM to set lock",
        ⟨l, some F, pwv, insertBlob bl F B⟩, true⟩ := by
  subst hpw
  simp [upload_file, get_ssm_parameter, set_ssm_parameter, hpe, hle, hbp,
    hsf, hsl, hl, hF]

/-- Witness for the amended C7 at a concrete locked store with only the
final lock write faulted. -/
theorem unlock_write_failure_fails_request_witness :
    upload_file ⟨some "alice", some "old", some "pw", []⟩
        { noFaults with setLockErr := true } "bob" "pw" "new.bin" [7] true =
      ⟨.error 500 "Error communicating with AWS SSM to set lock",
        ⟨some "alice", some "new.bin", some "pw",
          insertBlob [] "new.bin" [7]⟩, true⟩ :=
  unlock_write_failure_fails_request (some "alice") (some "old") (some "pw")
    [] "bob" "pw" "new.bin" [7] { noFaults with setLockErr := true }
    rfl rfl rfl rfl rfl (by simp [LOCK_VALUE_UNLOCKED]) rfl (by simp)

/-- C8 (failing input): the staging area is not released on the lock-write
failure path of a download.  With Lock unlocked, a valid tracked filename
and the blob present, a `ClientError` on the lock write makes
`set_ssm_parameter` raise an `HTTPException`, which is not a `ClientError`
and so escapes the handler at line 153 without any
`background_tasks.add_task(clean_temp_dir, temp_dir)` being scheduled: the
staging directory was created but never explicitly released, contradicting
the guaranteed-cleanup claim for that exit path. -/
theorem staging_leaked_on_lock_write_failure :
    get_file ⟨some LOCK_VALUE_UNLOCKED, some "save.bin", some "pw",
        [("save.bin", [1, 2, 3])]⟩
        { noFaults with setLockErr := true } "bob" "pw" true =
      ⟨.error 500 "Error communicating with AWS SSM to set lock",
        ⟨some LOCK_VALUE_UNLOCKED, some "save.bin", some "pw",
          [("save.bin", [1, 2, 3])]⟩,
        true, false⟩ :=
  rfl

end LotrShared
